import Mathlib

/-!
Shallow embedding of the core logic of the Easy-Gmail-MCP repository
(thread resolution, reply composition, header extraction) and proofs of
the specification claims about it.

Sources embedded:
- `src/src/imap-service.ts` (`ImapService`): `parseHeaders`, `listMessages`
  message construction and sort, `getMessage` message construction,
  `getThread`, `getAttachment`, `getMessageHeaders`.
- `src/unnamed/part_001` (`EmailOperations`): `replyToMessage`.
- `src/unnamed/part_002` (`SmtpService`): `sendReply`.
- `src/unnamed/part_003` (`types.ts`): the data model records.

Modelling conventions:
- ISO-8601 date strings (always produced by `Date.toISOString()` in the
  source) are modelled by their epoch-millisecond value (`Nat`): the JS
  sort comparators call `new Date(s).getTime()` on them, which is monotone
  and injective on such strings.
- JS `undefined`/optional fields become `Option`; JS string falsiness
  (`x || d` defaults on both `undefined` and `""`) is modelled by `jsOr`.
- Asynchronous collaborator calls (IMAP fetch/search, SMTP send) become
  explicit parameters holding their outcome; a rejected promise becomes
  `Except.error`.
- `toLocaleString` date rendering and base64 payload encoding are
  environment-dependent and passed through abstractly.
-/

namespace EasyGmail

/-- JS `\s` whitespace (ASCII part; header values in scope are ASCII). -/
def jsWs (c : Char) : Bool :=
  c == ' ' || c == '\t' || c == '\n' || c == '\r' || c == '\x0b' || c == '\x0c'

/-- JS `x || d` for an optional string `x`: defaults on `undefined` and `""`. -/
def jsOr (x : Option String) (d : String) : String :=
  match x with
  | some s => if s = "" then d else s
  | none => d

/-- Split a character list on a separator character, JS `String.split(sep)`
semantics: `"" ↦ [""]`, `"a,b" ↦ ["a","b"]`, `"a," ↦ ["a",""]`. -/
def splitOnChar (sep : Char) : List Char → List (List Char)
  | [] => [[]]
  | c :: cs =>
    match splitOnChar sep cs with
    | [] => [[c]]
    | l :: ls => if c = sep then [] :: l :: ls else (c :: l) :: ls

/-- JS `trim()`: strip whitespace from both ends. -/
def jsTrim (cs : List Char) : List Char :=
  ((cs.dropWhile jsWs).reverse.dropWhile jsWs).reverse

/-- Remove a single trailing `'\r'` if present (used to model splitting on
the regex `/\r?\n/`). -/
def dropTrailingCr (l : List Char) : List Char :=
  if l.getLast? = some '\r' then l.dropLast else l

/-- Apply `f` to every element except the last one. -/
def mapInit (f : List Char → List Char) : List (List Char) → List (List Char)
  | [] => []
  | [x] => [x]
  | x :: y :: xs => f x :: mapInit f (y :: xs)

/-- JS `headerStr.split(/\r?\n/)`: split on `'\n'`, stripping the `'\r'`
that the regex consumed from every piece that was followed by a `'\n'`. -/
def splitCrlf (cs : List Char) : List (List Char) :=
  mapInit dropTrailingCr (splitOnChar '\n' cs)

/-- JS `s.split(/\s+/).filter(Boolean)`: the maximal non-whitespace runs. -/
def jsWordsAux : List Char → List Char → List (List Char)
  | [], acc => if acc = [] then [] else [acc.reverse]
  | c :: cs, acc =>
    if jsWs c then
      if acc = [] then jsWordsAux cs [] else acc.reverse :: jsWordsAux cs []
    else jsWordsAux cs (c :: acc)

def jsWords (cs : List Char) : List (List Char) := jsWordsAux cs []

/-- JS `s.toLowerCase()` (ASCII header names in scope). -/
def jsToLower (s : String) : String := String.mk (s.data.map Char.toLower)

/-- JS `s.split(',').map(e => e.trim()).filter(Boolean)` as used for
address lists in `imap-service.ts`. -/
def splitCommaTrim (s : String) : List String :=
  (((splitOnChar ',' s.data).map (fun l => String.mk (jsTrim l))).filter
    (fun x => x ≠ ""))

/-- JS `s.split('\n')` as a list of strings. -/
def jsSplitLines (s : String) : List String :=
  (splitOnChar '\n' s.data).map String.mk

/-- JS `Array.join(sep)`. -/
def jsJoin (sep : String) (l : List String) : String :=
  match l with
  | [] => ""
  | x :: xs => xs.foldl (fun acc y => acc ++ sep ++ y) x

/-- JS `s.startsWith(p)`. -/
def jsStartsWith (s p : String) : Bool := p.data.isPrefixOf s.data

/-!
### Leftmost-match semantics of the two From-header regexes

`email-operations` (`replyToMessage`, part_001:105-106) and
`ImapService.extractEmail` (imap-service.ts:48) use
`/<([^>]+)>/` and `/([^\s<]+@[^\s>]+)/`, keeping capture group 1 of the
leftmost match.
-/

/-- Leftmost match of `/<([^>]+)>/`, returning capture group 1: at each
start position a `'<'` must be followed by a non-empty maximal run of
non-`'>'` characters and then a `'>'` (shorter runs cannot be followed by
`'>'`, so greedy matching with backtracking succeeds exactly on the
maximal run). -/
def matchAngle : List Char → Option (List Char)
  | [] => none
  | c :: cs =>
    if c = '<' then
      let inner := cs.takeWhile (fun d => d != '>')
      if inner ≠ [] ∧ cs.drop inner.length ≠ [] then some inner
      else matchAngle cs
    else matchAngle cs

/-- One attempt of `/([^\s<]+@[^\s>]+)/` anchored at the head of `cs`:
the first segment is a non-empty run of `[^\s<]` characters ending right
before an `'@'` (greedy, so the rightmost feasible `'@'` is tried first),
then the `'@'`, then a non-empty maximal run of `[^\s>]` characters. -/
def emailAt (cs : List Char) : Option (List Char) :=
  let r := cs.takeWhile (fun d => !jsWs d && d != '<')
  (((List.range r.length).filter
      (fun j => decide (r.get? j = some '@' ∧ 1 ≤ j))).reverse).findSome?
    (fun j =>
      let r2 := (cs.drop (j + 1)).takeWhile (fun d => !jsWs d && d != '>')
      if r2 ≠ [] then some (cs.take j ++ '@' :: r2) else none)

/-- Leftmost match of `/([^\s<]+@[^\s>]+)/` (capture group 1 is the whole
match): try `emailAt` at each start position, left to right. -/
def matchEmail : List Char → Option (List Char)
  | [] => none
  | c :: cs =>
    match emailAt (c :: cs) with
    | some m => some m
    | none => matchEmail cs

/-!
### Data model (types.ts)
-/

/-- `AttachmentInfo` (types.ts). -/
structure AttachmentInfo where
  index : Nat
  filename : String
  contentType : String
  size : Nat
deriving DecidableEq

/-- `AttachmentContent` (types.ts). `content` carries the attachment bytes;
the base64 transport encoding is kept abstract (no claim inspects it). -/
structure AttachmentContent where
  filename : String
  contentType : String
  size : Nat
  content : String
deriving DecidableEq

/-- `EmailMessage` (types.ts). The TS field `from` is `fromA` here (`from`
is a Lean keyword), `to` is `toA` for symmetry. `date` is the
epoch-millisecond value of the ISO date string (see file header). -/
structure EmailMessage where
  id : String
  threadId : String
  subject : String
  fromA : String
  toA : List String
  cc : Option (List String)
  date : Nat
  snippet : String
  body : Option String
  bodyHtml : Option String
  labels : List String
  isRead : Bool
  hasAttachments : Option Bool
  attachments : Option (List AttachmentInfo)
  inReplyTo : Option String
  references : Option (List String)
  messageId : Option String
deriving DecidableEq

/-- `ThreadResult` (types.ts). -/
structure ThreadResult where
  messages : List EmailMessage
  threadId : String
  messageCount : Nat
deriving DecidableEq

/-- `SendResult` (types.ts). -/
structure SendResult where
  messageId : String
  success : Bool
  message : String
deriving DecidableEq

/-- `ReplyParams` (smtp-service, part_002). `references` is always passed
as an array by `replyToMessage`, so it is a plain list here; the
`length > 0` truthiness check of `sendReply` is kept. -/
structure ReplyParams where
  toA : String
  subject : String
  body : String
  inReplyTo : Option String
  references : List String
  cc : Option String
deriving DecidableEq

/-- The nodemailer mail options record assembled by `sendReply`
(part_002:84-99); only fields the source sets. -/
structure MailOptions where
  fromA : String
  toA : String
  subject : String
  text : String
  cc : Option String
  inReplyTo : Option String
  references : Option String
deriving DecidableEq

/-- `ReplyToMessageParams` (types.ts, after Zod validation). -/
structure ReplyToMessageParams where
  id : String
  body : String
  includeQuote : Bool
deriving DecidableEq

/-- The record returned by `ImapService.getMessageHeaders`
(imap-service.ts:704-726). -/
structure OrigHeaders where
  fromA : String
  subject : String
  messageId : Option String
  references : List String
  date : Nat
  body : String
deriving DecidableEq

/-- A `mailparser` attachment as consumed by the source (`filename`,
`contentType` may be absent; `size` and `content` are always present). -/
structure RawAttachment where
  filename : Option String
  contentType : Option String
  size : Nat
  content : String
deriving DecidableEq

/-- The output of `mailparser.simpleParser` as consumed by the source.
`toTexts`/`ccTexts` are the address texts after the source's
array-normalisation; `references` likewise (the source wraps a single
string into an array, imap-service.ts:348-349). -/
structure ParsedMail where
  subject : Option String
  fromText : Option String
  toTexts : Option (List String)
  ccTexts : Option (List String)
  date : Option Nat
  text : Option String
  html : Option String
  messageId : Option String
  inReplyTo : Option String
  references : Option (List String)
  attachments : List RawAttachment
deriving DecidableEq

/-!
### Header parsing (`ImapService.parseHeaders`, imap-service.ts:55-81)

The JS `Record<string, string>` is a key/value list with overwrite
semantics (`headers[key] = value` keeps only the last occurrence).
-/

abbrev HeaderMap := List (String × String)

/-- JS object assignment `m[k] = v`: replace any existing binding. -/
def hmSet (m : HeaderMap) (k v : String) : HeaderMap :=
  m.filter (fun p => p.1 ≠ k) ++ [(k, v)]

/-- JS object lookup `m[k]` (with `undefined` for a missing key). -/
def hmGet (m : HeaderMap) (k : String) : Option String :=
  (m.find? (fun p => p.1 = k)).map (fun p => p.2)

/-- Loop state of `parseHeaders`: the map built so far plus the header
currently being folded. -/
structure PHState where
  headers : HeaderMap
  currentKey : String
  currentValue : String

/-- One iteration of the `parseHeaders` line loop (imap-service.ts:61-74):
continuation lines append to the current value, lines with a colon save
the previous header and open a new one, other lines are ignored. -/
def parseHeadersLine (st : PHState) (line : List Char) : PHState :=
  if line.head? = some ' ' ∨ line.head? = some '\t' then
    { st with currentValue := st.currentValue ++ " " ++ String.mk (jsTrim line) }
  else if ':' ∈ line then
    let saved :=
      if st.currentKey ≠ "" then
        hmSet st.headers (jsToLower st.currentKey) st.currentValue
      else st.headers
    { headers := saved,
      currentKey := String.mk (jsTrim (line.takeWhile (fun d => d ≠ ':'))),
      currentValue := String.mk (jsTrim ((line.dropWhile (fun d => d ≠ ':')).drop 1)) }
  else st

/-- `ImapService.parseHeaders` (imap-service.ts:55-81). -/
def parseHeaders (headerStr : String) : HeaderMap :=
  let st := (splitCrlf headerStr.data).foldl parseHeadersLine ⟨[], "", ""⟩
  if st.currentKey ≠ "" then
    hmSet st.headers (jsToLower st.currentKey) st.currentValue
  else st.headers

/-!
### Message construction
-/

/-- The per-message IMAP fetch attributes consumed by `listMessages`
(imap-service.ts:124-148). `structPresent` models the truthiness of
`attrs.struct`; `structHasAttachmentDisposition` models
`JSON.stringify(attrs.struct).includes('"disposition":["attachment"')`;
`seen` models `attrs.flags?.includes('\x5cSeen') || false`. -/
structure ImapAttrs where
  uid : Nat
  date : Option Nat
  seen : Bool
  structPresent : Bool
  structHasAttachmentDisposition : Bool
deriving DecidableEq

/-- The `EmailMessage` built per fetched message by `listMessages`
(imap-service.ts:128-151). `now` is the `new Date()` fallback timestamp. -/
def buildListMessage (headerStr : String) (attrs : ImapAttrs) (now : Nat) :
    EmailMessage :=
  let headers := parseHeaders headerStr
  let subjectD := jsOr (hmGet headers "subject") "(No Subject)"
  { id := toString attrs.uid
    threadId := toString attrs.uid
    subject := subjectD
    fromA := jsOr (hmGet headers "from") ""
    toA := splitCommaTrim (jsOr (hmGet headers "to") "")
    cc :=
      match hmGet headers "cc" with
      | some s => if s ≠ "" then some (splitCommaTrim s) else none
      | none => none
    date := attrs.date.getD now
    snippet := subjectD ++ " - " ++ jsOr (hmGet headers "from") "Unknown sender"
    body := none
    bodyHtml := none
    labels := ["INBOX"]
    isRead := attrs.seen
    hasAttachments :=
      if attrs.structPresent then some attrs.structHasAttachmentDisposition
      else none
    attachments := none
    inReplyTo := hmGet headers "in-reply-to"
    references :=
      (hmGet headers "references").map (fun s => (jsWords s.data).map String.mk)
    messageId := hmGet headers "message-id" }

/-- `listMessages` sort (imap-service.ts:165): stable JS sort with
comparator `(a, b) => dateB - dateA`, i.e. descending by timestamp. -/
def sortListMessages (l : List EmailMessage) : List EmailMessage :=
  l.mergeSort (fun a b => b.date ≤ a.date)

/-- `ImapService.listMessages` result assembly (imap-service.ts:86-177):
one message per fetched (header block, attributes) pair, sorted
descending by date. -/
def listMessages (items : List (String × ImapAttrs)) (now : Nat) :
    List EmailMessage :=
  sortListMessages (items.map (fun it => buildListMessage it.1 it.2 now))

/-- The `EmailMessage` built by `getMessage` from a parsed full message
(imap-service.ts:321-350). `att.size || 0` is the identity on the present
numeric size, so `size := att.size`. -/
def buildGetMessage (uid : String) (parsed : ParsedMail) (seen : Bool)
    (now : Nat) : EmailMessage :=
  let atts : List AttachmentInfo :=
    parsed.attachments.enum.map (fun p =>
      { index := p.1
        filename := jsOr p.2.filename ("attachment_" ++ toString p.1)
        contentType := jsOr p.2.contentType "application/octet-stream"
        size := p.2.size })
  { id := uid
    threadId := uid
    subject := jsOr parsed.subject "(No Subject)"
    fromA := jsOr parsed.fromText ""
    toA := parsed.toTexts.getD []
    cc := parsed.ccTexts
    date := parsed.date.getD now
    snippet := String.mk ((jsOr parsed.text "").data.take 200)
    body := some (jsOr parsed.text "")
    bodyHtml := parsed.html
    labels := ["INBOX"]
    isRead := seen
    hasAttachments := some (decide (0 < atts.length))
    attachments := some atts
    inReplyTo := parsed.inReplyTo
    references := parsed.references
    messageId := parsed.messageId }

/-- `ImapService.getMessage` (imap-service.ts:281-381): the IMAP fetch
outcome (`fetched`) is `error` for a rejected connection/fetch/parse,
`ok none` when no message matched the UID (`messageFound` stays false),
`ok (some (parsed, seen))` for a fetched and parsed message. -/
def getMessage (fetched : Except String (Option (ParsedMail × Bool)))
    (uid : String) (now : Nat) : Except String (Option EmailMessage) :=
  match fetched with
  | .error e => .error e
  | .ok none => .ok none
  | .ok (some pm) => .ok (some (buildGetMessage uid pm.1 pm.2 now))

/-- The `EmailMessage` built per thread member by `getThread`
(imap-service.ts:543-555). -/
def buildThreadMessage (threadUid : String) (now : Nat)
    (r : Nat × ParsedMail × Bool) : EmailMessage :=
  { id := toString r.1
    threadId := threadUid
    subject := jsOr r.2.1.subject "(No Subject)"
    fromA := jsOr r.2.1.fromText ""
    toA := r.2.1.toTexts.getD []
    cc := none
    date := r.2.1.date.getD now
    snippet := String.mk ((jsOr r.2.1.text "").data.take 200)
    body := some (jsOr r.2.1.text "")
    bodyHtml := none
    labels := ["INBOX"]
    isRead := r.2.2
    hasAttachments := none
    attachments := none
    inReplyTo := none
    references := none
    messageId := r.2.1.messageId }

/-!
### Thread resolution (`ImapService.getThread`, imap-service.ts:430-600)
-/

/-- JS `Set.add` on an insertion-ordered set represented as a list. -/
def addAnchor (l : List String) (s : String) : List String :=
  if s ∈ l then l else l ++ [s]

/-- The anchor-token set built by `getThread` (imap-service.ts:446-456):
the target's Message-ID and In-Reply-To when truthy (present and
non-empty), then every entry of its References list, deduplicated in
insertion order. -/
def anchorTokens (m : EmailMessage) : List String :=
  let l1 :=
    match m.messageId with
    | some s => if s ≠ "" then addAnchor [] s else []
    | none => []
  let l2 :=
    match m.inReplyTo with
    | some s => if s ≠ "" then addAnchor l1 s else l1
    | none => l1
  (m.references.getD []).foldl addAnchor l2

/-- JS `[...new Set(arr)]`: deduplicate keeping first occurrences. -/
def dedupUids (l : List Nat) : List Nat :=
  l.foldl (fun acc n => if n ∈ acc then acc else acc ++ [n]) []

/-- `getThread` sort (imap-service.ts:576): stable JS sort with comparator
`(a, b) => dateA - dateB`, i.e. ascending by timestamp (oldest first). -/
def sortThreadMessages (l : List EmailMessage) : List EmailMessage :=
  l.mergeSort (fun a b => a.date ≤ b.date)

/-- The mailbox collaborator outcomes consumed by one `getThread` call.
`fetchOriginal` is the outcome of the initial `this.getMessage(uid)`
(see `getMessage`); `connectOk`/`openBoxOk` model the secondary
connection's error/`openBox` callbacks; `searchMsgId token` and
`searchRefs token` are the UID lists of the two header searches for one
anchor token (a search error already yields `[]` in the source,
imap-service.ts:488/497); `fetchBatch uids` is the batch fetch outcome,
whose `ok` list holds the successfully parsed members (per-message parse
failures are dropped by the source, imap-service.ts:558-560). -/
structure ThreadMailbox where
  fetchOriginal : Except String (Option EmailMessage)
  connectOk : Bool
  openBoxOk : Bool
  searchMsgId : String → List Nat
  searchRefs : String → List Nat
  fetchBatch : List Nat → Except String (List (Nat × ParsedMail × Bool))

/-- `ImapService.getThread` (imap-service.ts:430-600). Branches, in source
order: rejected initial fetch rethrows (line 596-598); missing message
gives the empty result (434-443); empty anchor set gives the singleton
(458-466); secondary connection or `openBox` failure gives the singleton
(473-482, 586-592); both searches per anchor, Message-ID searches first,
results flattened and deduplicated (485-503); empty union gives the
singleton (505-513); batch fetch error gives the singleton (564-571);
otherwise the parsed members sorted ascending by date (573-582). -/
def getThread (mb : ThreadMailbox) (uid : String) (now : Nat) :
    Except String ThreadResult :=
  match mb.fetchOriginal with
  | .error e => .error ("Failed to get thread: " ++ e)
  | .ok none => .ok { messages := [], threadId := uid, messageCount := 0 }
  | .ok (some orig) =>
    let anchors := anchorTokens orig
    if anchors.isEmpty then
      .ok { messages := [orig], threadId := uid, messageCount := 1 }
    else if ¬ mb.connectOk ∨ ¬ mb.openBoxOk then
      .ok { messages := [orig], threadId := uid, messageCount := 1 }
    else
      let uniqueUids :=
        dedupUids ((anchors.map mb.searchMsgId ++ anchors.map mb.searchRefs).flatten)
      if uniqueUids.isEmpty then
        .ok { messages := [orig], threadId := uid, messageCount := 1 }
      else
        match mb.fetchBatch uniqueUids with
        | .error _ =>
          .ok { messages := [orig], threadId := uid, messageCount := 1 }
        | .ok raws =>
          let msgs := sortThreadMessages (raws.map (buildThreadMessage uid now))
          .ok { messages := msgs, threadId := uid, messageCount := msgs.length }

/-!
### Attachment download (`ImapService.getAttachment`, imap-service.ts:605-699)
-/

/-- `ImapService.getAttachment` after the fetch: `fetched` is `none` when
no message matched the UID (`messageFound` stays false, 684-689),
otherwise the parsed message. Then (638-671): no attachments or an
out-of-range index resolve `null`; an attachment larger than
`maxSizeBytes` rejects; otherwise the content record is returned
(`content` abstracts the base64 rendering of the bytes). -/
def getAttachment (fetched : Option ParsedMail) (attachmentIndex : Nat)
    (maxSizeBytes : Nat) : Except String (Option AttachmentContent) :=
  match fetched with
  | none => .ok none
  | some parsed =>
    if parsed.attachments.length = 0 then .ok none
    else if parsed.attachments.length ≤ attachmentIndex then .ok none
    else
      match parsed.attachments.get? attachmentIndex with
      | none => .ok none
      | some att =>
        if maxSizeBytes < att.size then
          .error ("Attachment size (" ++ toString att.size ++
            " bytes) exceeds limit (" ++ toString maxSizeBytes ++ " bytes)")
        else
          .ok (some
            { filename := jsOr att.filename ("attachment_" ++ toString attachmentIndex)
              contentType := jsOr att.contentType "application/octet-stream"
              size := att.size
              content := att.content })

/-!
### Reply composition
-/

/-- `ImapService.getMessageHeaders` (imap-service.ts:704-726): the
references list is the message's References with its own Message-ID
appended, then `.filter(Boolean)`, which drops the `undefined` entry (an
absent Message-ID) and empty strings. -/
def getMessageHeaders (m : EmailMessage) : OrigHeaders :=
  { fromA := m.fromA
    subject := m.subject
    messageId := m.messageId
    references := ((m.references.getD []) ++ m.messageId.toList).filter
      (fun s => s ≠ "")
    date := m.date
    body := m.body.getD "" }

/-- The reply-to address computed by `replyToMessage` (part_001:105-107):
capture 1 of the first angle-bracket pair, else the first bare
address-shaped token, else the whole From header. -/
def extractReplyTo (h : String) : String :=
  match matchAngle h.data with
  | some inner => String.mk inner
  | none =>
    match matchEmail h.data with
    | some tok => String.mk tok
    | none => h

/-- Quoted original body (part_001:121-124): every line individually
prefixed with "> ". -/
def quoteLines (body : String) : String :=
  jsJoin "\n" ((jsSplitLines body).map (fun line => "> " ++ line))

/-- The reply body (part_001:117-128): the caller's body, and when
`includeQuote` is set and the original body is truthy (non-empty), the
attribution line with the locale-formatted date (`fmt`) and the quoted
original. -/
def composedBody (oh : OrigHeaders) (fmt : Nat → String)
    (params : ReplyToMessageParams) : String :=
  if params.includeQuote ∧ oh.body ≠ "" then
    params.body ++ "\n\n---\nOn " ++ fmt oh.date ++ ", " ++ oh.fromA ++
      " wrote:\n" ++ quoteLines oh.body
  else params.body

/-- The `ReplyParams` record handed to `smtpService.sendReply`
(part_001:131-137). -/
def composedReplyParams (oh : OrigHeaders) (fmt : Nat → String)
    (params : ReplyToMessageParams) : ReplyParams :=
  { toA := extractReplyTo oh.fromA
    subject := oh.subject
    body := composedBody oh fmt params
    inReplyTo := oh.messageId
    references := oh.references
    cc := none }

/-- `EmailOperations.replyToMessage` (part_001:91-145). `fetchHeaders` is
the outcome of `imapService.getMessageHeaders(params.id)`; `sender` is
`smtpService.sendReply` (total: it catches its own errors). The
surrounding `try`/`catch` turns any rejection — including a
connection-level error of the initial fetch — into a failure
`SendResult` (part_001:138-144), so the function is total. -/
def replyToMessage (fetchHeaders : Except String (Option OrigHeaders))
    (fmt : Nat → String) (sender : ReplyParams → SendResult)
    (params : ReplyToMessageParams) : SendResult :=
  match fetchHeaders with
  | .error e =>
    { messageId := "", success := false,
      message := "Failed to send reply: " ++ e }
  | .ok none =>
    { messageId := "", success := false,
      message := "Original message not found" }
  | .ok (some oh) =>
    let replyTo := extractReplyTo oh.fromA
    if replyTo = "" ∨ ¬ '@' ∈ replyTo.data then
      { messageId := "", success := false,
        message := "Could not determine reply address from original message" }
    else sender (composedReplyParams oh fmt params)

/-!
### SMTP reply dispatch (`SmtpService.sendReply`, part_002:73-115)
-/

/-- The nodemailer mail options assembled by `sendReply` (part_002:84-99):
subject gets a "Re: " prefix unless already exactly "Re:"-prefixed
(case-sensitive); `inReplyTo` is set only when truthy; `references` is
the space-joined list, set only when non-empty. -/
def replyMailOptions (cfgUser : String) (p : ReplyParams) : MailOptions :=
  { fromA := cfgUser
    toA := p.toA
    subject :=
      if jsStartsWith p.subject "Re:" then p.subject else "Re: " ++ p.subject
    text := p.body
    cc := p.cc
    inReplyTo :=
      match p.inReplyTo with
      | some s => if s ≠ "" then some s else none
      | none => none
    references :=
      if 0 < p.references.length then some (jsJoin " " p.references) else none }

/-- `SmtpService.sendReply` (part_002:73-115): recipient validation
(falsy or without '@') yields a failure result; otherwise the transporter
outcome (`transport`, total — the `catch` turns a transporter rejection
into a failure result) on the assembled mail options. -/
def sendReply (cfgUser : String) (transport : MailOptions → SendResult)
    (p : ReplyParams) : SendResult :=
  if p.toA = "" ∨ ¬ '@' ∈ p.toA.data then
    { messageId := "", success := false,
      message := "Invalid recipient email address" }
  else transport (replyMailOptions cfgUser p)

/-!
### Helper lemmas about the two stable sorts

JS `Array.prototype.sort` is stable; both sorts are modelled with the
stable `List.mergeSort`.
-/

theorem sortThreadMessages_pairwise (l : List EmailMessage) :
    (sortThreadMessages l).Pairwise (fun a b => a.date ≤ b.date) := by
  have h := @List.sorted_mergeSort EmailMessage
      (fun a b : EmailMessage => decide (a.date ≤ b.date))
      (by intro a b c hab hbc; simp only [decide_eq_true_eq] at *; omega)
      (by intro a b; simp only [Bool.or_eq_true, decide_eq_true_eq]; omega) l
  simp only [sortThreadMessages]
  exact h.imp (fun hab => by simpa using hab)

theorem sortListMessages_pairwise (l : List EmailMessage) :
    (sortListMessages l).Pairwise (fun a b => b.date ≤ a.date) := by
  have h := @List.sorted_mergeSort EmailMessage
      (fun a b : EmailMessage => decide (b.date ≤ a.date))
      (by intro a b c hab hbc; simp only [decide_eq_true_eq] at *; omega)
      (by intro a b; simp only [Bool.or_eq_true, decide_eq_true_eq]; omega) l
  simp only [sortListMessages]
  exact h.imp (fun hab => by simpa using hab)

theorem sortThreadMessages_filter_date (l : List EmailMessage) (t : Nat) :
    (sortThreadMessages l).filter (fun m => m.date == t) =
      l.filter (fun m => m.date == t) := by
  have hsub : List.Sublist (l.filter (fun m => m.date == t))
      (sortThreadMessages l) := by
    simp only [sortThreadMessages]
    apply List.sublist_mergeSort
    · intro a b c hab hbc; simp only [decide_eq_true_eq] at *; omega
    · intro a b; simp only [Bool.or_eq_true, decide_eq_true_eq]; omega
    · apply List.pairwise_of_forall_mem_list
      intro a ha b hb
      have ha2 := (List.mem_filter.mp ha).2
      have hb2 := (List.mem_filter.mp hb).2
      simp only [beq_iff_eq] at ha2 hb2
      simp only [decide_eq_true_eq]
      omega
    · exact List.filter_sublist l
  have hfil : (l.filter (fun m => m.date == t)).filter (fun m => m.date == t) =
      l.filter (fun m => m.date == t) := by
    apply List.filter_eq_self.mpr
    intro a ha
    exact (List.mem_filter.mp ha).2
  have h2 : List.Sublist (l.filter (fun m => m.date == t))
      ((sortThreadMessages l).filter (fun m => m.date == t)) := by
    have h3 := hsub.filter (fun m => m.date == t)
    rwa [hfil] at h3
  have hperm : List.Perm ((sortThreadMessages l).filter (fun m => m.date == t))
      (l.filter (fun m => m.date == t)) := by
    simp only [sortThreadMessages]
    exact (List.mergeSort_perm l _).filter _
  exact (h2.eq_of_length hperm.length_eq.symm).symm

deriving instance DecidableEq for Except

/-!
### Claim theorems
-/

/-- C5: for every reply sent, the outgoing subject equals the original
subject unchanged when the original subject starts with the exact
case-sensitive prefix "Re:", and otherwise equals "Re: " prepended to
the original subject (so "Meeting" becomes "Re: Meeting" and
"Re: Meeting" stays "Re: Meeting", never "Re: Re: Meeting"). -/
theorem claim_C5_reply_subject :
    (∀ (cfgUser : String) (p : ReplyParams), jsStartsWith p.subject "Re:" = true →
      (replyMailOptions cfgUser p).subject = p.subject) ∧
    (∀ (cfgUser : String) (p : ReplyParams), jsStartsWith p.subject "Re:" = false →
      (replyMailOptions cfgUser p).subject = "Re: " ++ p.subject) ∧
    (∀ (cfgUser : String) (p : ReplyParams), p.subject = "Meeting" →
      (replyMailOptions cfgUser p).subject = "Re: Meeting") ∧
    (∀ (cfgUser : String) (p : ReplyParams), p.subject = "Re: Meeting" →
      (replyMailOptions cfgUser p).subject = "Re: Meeting") := by
  refine ⟨?_, ?_, ?_, ?_⟩ <;> intro cfgUser p h
  · simp [replyMailOptions, h]
  · simp [replyMailOptions, h]
  · simp only [replyMailOptions, h]
    decide
  · simp only [replyMailOptions, h]
    decide

/-- Witness for C5 at concrete subjects. -/
theorem claim_C5_reply_subject_witness :
    (replyMailOptions "u@srv"
      { toA := "a@b.c", subject := "Re: Meeting", body := "hi",
        inReplyTo := none, references := [], cc := none }).subject =
      "Re: Meeting" ∧
    (replyMailOptions "u@srv"
      { toA := "a@b.c", subject := "Meeting", body := "hi",
        inReplyTo := none, references := [], cc := none }).subject =
      "Re: Meeting" :=
  ⟨claim_C5_reply_subject.1 "u@srv"
      { toA := "a@b.c", subject := "Re: Meeting", body := "hi",
        inReplyTo := none, references := [], cc := none } (by decide),
    claim_C5_reply_subject.2.1 "u@srv"
      { toA := "a@b.c", subject := "Meeting", body := "hi",
        inReplyTo := none, references := [], cc := none } (by decide)⟩

/-- C7: `replyToMessage` extracts the reply address from the From header
by taking the content of the first angle-bracket pair if one exists,
otherwise the first address-shaped token containing '@'; whenever neither
pattern matches or the extracted value contains no '@' (e.g. "Jane Doe"),
it returns a failure result (success false, empty messageId) without
invoking the sender (the result is the same for every sender). -/
theorem claim_C7_address_extraction :
    (∀ (h : String) (inner : List Char), matchAngle h.data = some inner →
      extractReplyTo h = String.mk inner) ∧
    (∀ (h : String) (tok : List Char), matchAngle h.data = none →
      matchEmail h.data = some tok → extractReplyTo h = String.mk tok) ∧
    (∀ (h : String), matchAngle h.data = none → matchEmail h.data = none →
      extractReplyTo h = h) ∧
    (∀ (oh : OrigHeaders) (fmt : Nat → String)
      (sender : ReplyParams → SendResult) (params : ReplyToMessageParams),
      (extractReplyTo oh.fromA = "" ∨ ¬ '@' ∈ (extractReplyTo oh.fromA).data) →
      replyToMessage (.ok (some oh)) fmt sender params =
        { messageId := "", success := false,
          message := "Could not determine reply address from original message" }) ∧
    extractReplyTo "Jane Doe <jane@example.com>" = "jane@example.com" ∧
    extractReplyTo "jane@example.com" = "jane@example.com" ∧
    (∀ (fmt : Nat → String) (sender : ReplyParams → SendResult)
      (params : ReplyToMessageParams),
      replyToMessage (.ok (some
        { fromA := "Jane Doe", subject := "Hello", messageId := none,
          references := [], date := 0, body := "" })) fmt sender params =
        { messageId := "", success := false,
          message := "Could not determine reply address from original message" }) := by
  refine ⟨?_, ?_, ?_, ?_, by decide, by decide, ?_⟩
  · intro h inner hm
    simp only [extractReplyTo, hm]
  · intro h tok hm he
    simp only [extractReplyTo, hm, he]
  · intro h hm he
    simp only [extractReplyTo, hm, he]
  · intro oh fmt sender params hbad
    simp only [replyToMessage, if_pos hbad]
  · intro fmt sender params
    simp only [replyToMessage]
    rw [if_pos]
    exact Or.inr (by decide)

/-- Witness for C7 at concrete headers. -/
theorem claim_C7_address_extraction_witness :
    extractReplyTo "Jane Doe <jane@example.com>" = "jane@example.com" ∧
    extractReplyTo "jane@example.com" = "jane@example.com" ∧
    replyToMessage (.ok (some
        { fromA := "Jane Doe", subject := "Hello", messageId := none,
          references := [], date := 0, body := "" }))
        (fun _ => "d") (fun _ => { messageId := "x", success := true, message := "m" })
        { id := "1", body := "b", includeQuote := true } =
      { messageId := "", success := false,
        message := "Could not determine reply address from original message" } :=
  ⟨claim_C7_address_extraction.1 "Jane Doe <jane@example.com>"
      "jane@example.com".data (by decide),
    claim_C7_address_extraction.2.1 "jane@example.com"
      "jane@example.com".data (by decide) (by decide),
    claim_C7_address_extraction.2.2.2.2.2.2
      (fun _ => "d") (fun _ => { messageId := "x", success := true, message := "m" })
      { id := "1", body := "b", includeQuote := true }⟩

/-- C1: for every reply composed by `replyToMessage` to an existing target
message (with a determinable reply address), the References list handed to
the sender equals the target message's References with the target's own
Message-ID appended (null/absent and empty entries removed), and the
In-Reply-To handed to the sender equals the target's Message-ID. -/
theorem claim_C1_reply_threading_headers :
    ∀ (m : EmailMessage) (fmt : Nat → String)
      (sender : ReplyParams → SendResult) (params : ReplyToMessageParams),
      extractReplyTo m.fromA ≠ "" → '@' ∈ (extractReplyTo m.fromA).data →
      ∃ rp : ReplyParams,
        replyToMessage (.ok (some (getMessageHeaders m))) fmt sender params =
          sender rp ∧
        rp.references =
          ((m.references.getD []) ++ m.messageId.toList).filter (fun s => s ≠ "") ∧
        rp.inReplyTo = m.messageId ∧
        (params.includeQuote = false → rp.body = params.body) := by
  intro m fmt sender params hne hat
  refine ⟨composedReplyParams (getMessageHeaders m) fmt params, ?_, rfl, rfl, ?_⟩
  · simp only [replyToMessage, getMessageHeaders]
    rw [if_neg (by push_neg; exact ⟨hne, hat⟩)]
  · intro hq
    simp [composedReplyParams, composedBody, hq]

/-- Witness for C1: a concrete target with References `[<r1@x>, <r2@x>]`
and Message-ID `<m@x>`, replied to with include-quote false. -/
theorem claim_C1_reply_threading_headers_witness :
    ∃ rp : ReplyParams,
      replyToMessage (.ok (some (getMessageHeaders
          { id := "19", threadId := "19", subject := "Meeting",
            fromA := "Alice <alice@example.com>", toA := ["bob@example.com"],
            cc := none, date := 1700000000000, snippet := "s",
            body := some "See you", bodyHtml := none, labels := ["INBOX"],
            isRead := true, hasAttachments := some false,
            attachments := some [], inReplyTo := none,
            references := some ["<r1@x>", "<r2@x>"],
            messageId := some "<m@x>" })))
        (fun _ => "1/1/2024")
        (fun _ => (⟨"id9", true, "Reply sent successfully"⟩ : SendResult))
        { id := "19", body := "Thanks!", includeQuote := false } =
        (⟨"id9", true, "Reply sent successfully"⟩ : SendResult) ∧
      rp.references = ["<r1@x>", "<r2@x>", "<m@x>"] ∧
      rp.inReplyTo = some "<m@x>" ∧
      (false = false → rp.body = "Thanks!") := by
  have h := claim_C1_reply_threading_headers
    { id := "19", threadId := "19", subject := "Meeting",
      fromA := "Alice <alice@example.com>", toA := ["bob@example.com"],
      cc := none, date := 1700000000000, snippet := "s",
      body := some "See you", bodyHtml := none, labels := ["INBOX"],
      isRead := true, hasAttachments := some false,
      attachments := some [], inReplyTo := none,
      references := some ["<r1@x>", "<r2@x>"],
      messageId := some "<m@x>" }
    (fun _ => "1/1/2024")
    (fun _ => (⟨"id9", true, "Reply sent successfully"⟩ : SendResult))
    { id := "19", body := "Thanks!", includeQuote := false }
    (by decide) (by decide)
  obtain ⟨rp, h1, h2, h3, h4⟩ := h
  exact ⟨rp, h1, by rw [h2]; decide, h3, fun _ => h4 rfl⟩

/-- C6: when includeQuote is true and the original message has a non-empty
body, the body handed to the sender equals the caller's body, then the
literal "\n\n---\nOn <formatted original date>, <original From> wrote:\n",
then the original body with every line individually prefixed by "> " (so
"line1\nline2" quotes to "> line1\n> line2"); when includeQuote is false,
the body is exactly the caller's body. -/
theorem claim_C6_reply_quoting :
    (∀ (m : EmailMessage) (fmt : Nat → String)
      (sender : ReplyParams → SendResult) (params : ReplyToMessageParams),
      extractReplyTo m.fromA ≠ "" → '@' ∈ (extractReplyTo m.fromA).data →
      (params.includeQuote = true → m.body.getD "" ≠ "" →
        replyToMessage (.ok (some (getMessageHeaders m))) fmt sender params =
          sender
            { toA := extractReplyTo m.fromA
              subject := m.subject
              body := params.body ++ "\n\n---\nOn " ++ fmt m.date ++ ", " ++
                m.fromA ++ " wrote:\n" ++ quoteLines (m.body.getD "")
              inReplyTo := m.messageId
              references := ((m.references.getD []) ++ m.messageId.toList).filter
                (fun s => s ≠ "")
              cc := none }) ∧
      (params.includeQuote = false →
        replyToMessage (.ok (some (getMessageHeaders m))) fmt sender params =
          sender
            { toA := extractReplyTo m.fromA
              subject := m.subject
              body := params.body
              inReplyTo := m.messageId
              references := ((m.references.getD []) ++ m.messageId.toList).filter
                (fun s => s ≠ "")
              cc := none })) ∧
    quoteLines "line1\nline2" = "> line1\n> line2" := by
  refine ⟨?_, by decide⟩
  intro m fmt sender params hne hat
  have hstep : replyToMessage (.ok (some (getMessageHeaders m))) fmt sender
      params = sender (composedReplyParams (getMessageHeaders m) fmt params) := by
    simp only [replyToMessage, getMessageHeaders]
    rw [if_neg (by push_neg; exact ⟨hne, hat⟩)]
  constructor
  · intro hq hbody
    rw [hstep]
    congr 1
    simp [composedReplyParams, composedBody, getMessageHeaders, hq, hbody]
  · intro hq
    rw [hstep]
    congr 1
    simp [composedReplyParams, composedBody, getMessageHeaders, hq]

/-- Witness for C6: concrete reply with includeQuote true over body
"line1\nline2". -/
theorem claim_C6_reply_quoting_witness :
    replyToMessage (.ok (some (getMessageHeaders
        { id := "19", threadId := "19", subject := "Meeting",
          fromA := "Alice <alice@example.com>", toA := ["bob@example.com"],
          cc := none, date := 1700000000000, snippet := "s",
          body := some "line1\nline2", bodyHtml := none, labels := ["INBOX"],
          isRead := true, hasAttachments := some false, attachments := some [],
          inReplyTo := none, references := some ["<r1@x>"],
          messageId := some "<m@x>" })))
      (fun _ => "1/1/2024") (fun rp => (⟨rp.body, true, "ok"⟩ : SendResult))
      { id := "19", body := "Thanks!", includeQuote := true } =
      (⟨"Thanks!\n\n---\nOn 1/1/2024, Alice <alice@example.com> wrote:\n> line1\n> line2",
        true, "ok"⟩ : SendResult) := by
  have h := (claim_C6_reply_quoting.1
    { id := "19", threadId := "19", subject := "Meeting",
      fromA := "Alice <alice@example.com>", toA := ["bob@example.com"],
      cc := none, date := 1700000000000, snippet := "s",
      body := some "line1\nline2", bodyHtml := none, labels := ["INBOX"],
      isRead := true, hasAttachments := some false, attachments := some [],
      inReplyTo := none, references := some ["<r1@x>"],
      messageId := some "<m@x>" }
    (fun _ => "1/1/2024") (fun rp => (⟨rp.body, true, "ok"⟩ : SendResult))
    { id := "19", body := "Thanks!", includeQuote := true }
    (by decide) (by decide)).1 rfl (by decide)
  rw [h]
  decide

/-- C8 counterexample: the claim says a connection-level error during the
initial fetch propagates to `replyToMessage`'s caller as a thrown error;
in the code the surrounding catch (part_001:138-144) converts it into a
returned failure `SendResult` instead. -/
theorem claim_C8_counterexample :
    replyToMessage (.error "IMAP connection error: connect ECONNREFUSED")
        (fun _ => "d")
        (fun _ => (⟨"id1", true, "Reply sent successfully"⟩ : SendResult))
        { id := "19", body := "Thanks!", includeQuote := false } =
      (⟨"", false,
        "Failed to send reply: IMAP connection error: connect ECONNREFUSED"⟩ :
        SendResult) ∧
    (replyToMessage (.error "IMAP connection error: connect ECONNREFUSED")
        (fun _ => "d")
        (fun _ => (⟨"id1", true, "Reply sent successfully"⟩ : SendResult))
        { id := "19", body := "Thanks!", includeQuote := false }).success =
      false := by
  exact ⟨rfl, rfl⟩

/-- C8 (amended): `replyToMessage` returns a structured failure result and
never raises, for every failure path including a connection-level error of
the initial fetch (which the catch converts into a failure result); a
determinable address hands the composed reply to the sender, whose
structured outcome is returned as-is. -/
theorem claim_C8_structured_failure_results :
    ∀ (fetch : Except String (Option OrigHeaders)) (fmt : Nat → String)
      (sender : ReplyParams → SendResult) (params : ReplyToMessageParams),
      (∀ e, fetch = .error e →
        replyToMessage fetch fmt sender params =
          (⟨"", false, "Failed to send reply: " ++ e⟩ : SendResult)) ∧
      (fetch = .ok none →
        replyToMessage fetch fmt sender params =
          (⟨"", false, "Original message not found"⟩ : SendResult)) ∧
      (∀ oh, fetch = .ok (some oh) →
        (extractReplyTo oh.fromA = "" ∨ ¬ '@' ∈ (extractReplyTo oh.fromA).data) →
        replyToMessage fetch fmt sender params =
          (⟨"", false,
            "Could not determine reply address from original message"⟩ :
            SendResult)) ∧
      (∀ oh, fetch = .ok (some oh) →
        extractReplyTo oh.fromA ≠ "" → '@' ∈ (extractReplyTo oh.fromA).data →
        replyToMessage fetch fmt sender params =
          sender (composedReplyParams oh fmt params)) := by
  intro fetch fmt sender params
  refine ⟨?_, ?_, ?_, ?_⟩
  · intro e he
    simp only [replyToMessage, he]
  · intro he
    simp only [replyToMessage, he]
  · intro oh he hbad
    simp only [replyToMessage, he, if_pos hbad]
  · intro oh he hne hat
    simp only [replyToMessage, he]
    rw [if_neg (by push_neg; exact ⟨hne, hat⟩)]

/-- Witness for C8 (amended) at concrete inputs for each failure branch. -/
theorem claim_C8_structured_failure_results_witness :
    replyToMessage (.error "boom") (fun _ => "d")
        (fun _ => (⟨"i", true, "m"⟩ : SendResult))
        { id := "1", body := "b", includeQuote := false } =
      (⟨"", false, "Failed to send reply: boom"⟩ : SendResult) ∧
    replyToMessage (.ok none) (fun _ => "d")
        (fun _ => (⟨"i", true, "m"⟩ : SendResult))
        { id := "1", body := "b", includeQuote := false } =
      (⟨"", false, "Original message not found"⟩ : SendResult) ∧
    replyToMessage (.ok (some
        { fromA := "Jane Doe", subject := "s", messageId := none,
          references := [], date := 0, body := "" }))
        (fun _ => "d") (fun _ => (⟨"i", true, "m"⟩ : SendResult))
        { id := "1", body := "b", includeQuote := false } =
      (⟨"", false,
        "Could not determine reply address from original message"⟩ :
        SendResult) :=
  ⟨(claim_C8_structured_failure_results (.error "boom") (fun _ => "d")
      (fun _ => (⟨"i", true, "m"⟩ : SendResult))
      { id := "1", body := "b", includeQuote := false }).1 "boom" rfl,
    (claim_C8_structured_failure_results (.ok none) (fun _ => "d")
      (fun _ => (⟨"i", true, "m"⟩ : SendResult))
      { id := "1", body := "b", includeQuote := false }).2.1 rfl,
    (claim_C8_structured_failure_results (.ok (some
        { fromA := "Jane Doe", subject := "s", messageId := none,
          references := [], date := 0, body := "" }))
      (fun _ => "d") (fun _ => (⟨"i", true, "m"⟩ : SendResult))
      { id := "1", body := "b", includeQuote := false }).2.2.1
      { fromA := "Jane Doe", subject := "s", messageId := none,
        references := [], date := 0, body := "" } rfl
      (Or.inr (by decide))⟩

/-- C4 counterexample: the claim says a failing initial fetch also yields
the empty ThreadResult; in the code a rejected `getMessage` is rethrown by
`getThread`'s catch (imap-service.ts:596-598), so the call errors instead
of returning a result. -/
theorem claim_C4_counterexample :
    getThread
        { fetchOriginal := .error "Fetch error: connection reset",
          connectOk := true, openBoxOk := true,
          searchMsgId := fun _ => [], searchRefs := fun _ => [],
          fetchBatch := fun _ => .ok [] } "7" 0 =
      .error "Failed to get thread: Fetch error: connection reset" ∧
    getThread
        { fetchOriginal := .error "Fetch error: connection reset",
          connectOk := true, openBoxOk := true,
          searchMsgId := fun _ => [], searchRefs := fun _ => [],
          fetchBatch := fun _ => .ok [] } "7" 0 ≠
      .ok { messages := [], threadId := "7", messageCount := 0 } := by
  refine ⟨rfl, ?_⟩
  intro h
  simp only [getThread] at h
  exact absurd h (by simp)

/-- C4 (amended): for every input ID whose message does not exist (the
fetch resolves with no message), `getThread` returns a ThreadResult with
an empty message list, threadId equal to the input ID and messageCount
zero; a rejected initial fetch instead propagates as an error. -/
theorem claim_C4_not_found_empty_result :
    ∀ (mb : ThreadMailbox) (uid : String) (now : Nat),
      mb.fetchOriginal = .ok none →
      getThread mb uid now =
        .ok { messages := [], threadId := uid, messageCount := 0 } := by
  intro mb uid now h
  simp only [getThread, h]

/-- Witness for C4 (amended) at a concrete mailbox. -/
theorem claim_C4_not_found_empty_result_witness :
    getThread
        { fetchOriginal := .ok none,
          connectOk := true, openBoxOk := true,
          searchMsgId := fun _ => [], searchRefs := fun _ => [],
          fetchBatch := fun _ => .ok [] } "7" 0 =
      .ok { messages := [], threadId := "7", messageCount := 0 } :=
  claim_C4_not_found_empty_result
    { fetchOriginal := .ok none,
      connectOk := true, openBoxOk := true,
      searchMsgId := fun _ => [], searchRefs := fun _ => [],
      fetchBatch := fun _ => .ok [] } "7" 0 rfl

/-- C2: for every message ID whose initial fetch succeeds, if the fetched
message carries no Message-ID, In-Reply-To or References headers, or if
the anchor-token searches return no matching message IDs, then `getThread`
returns a ThreadResult containing exactly the target message with count 1
— never an empty result. -/
theorem claim_C2_singleton_fallback :
    ∀ (mb : ThreadMailbox) (uid : String) (now : Nat) (orig : EmailMessage),
      mb.fetchOriginal = .ok (some orig) →
      ((orig.messageId = none ∧ orig.inReplyTo = none ∧
          orig.references = none) ∨
        (∀ a ∈ anchorTokens orig,
          mb.searchMsgId a = [] ∧ mb.searchRefs a = [])) →
      getThread mb uid now =
        .ok { messages := [orig], threadId := uid, messageCount := 1 } := by
  intro mb uid now orig hfetch hcase
  simp only [getThread, hfetch]
  rcases hcase with ⟨h1, h2, h3⟩ | hs
  · have ha : anchorTokens orig = [] := by
      simp [anchorTokens, h1, h2, h3]
    simp [ha]
  · by_cases ha : (anchorTokens orig).isEmpty
    · rw [if_pos ha]
    · rw [if_neg ha]
      by_cases hc : ¬ mb.connectOk ∨ ¬ mb.openBoxOk
      · rw [if_pos hc]
      · have hflat : (((anchorTokens orig).map mb.searchMsgId ++
            (anchorTokens orig).map mb.searchRefs).flatten :
              List Nat) = [] := by
          rw [List.flatten_eq_nil_iff]
          intro l hl
          rcases List.mem_append.mp hl with hm | hm
          · obtain ⟨a, hmem, rfl⟩ := List.mem_map.mp hm
            exact (hs a hmem).1
          · obtain ⟨a, hmem, rfl⟩ := List.mem_map.mp hm
            exact (hs a hmem).2
        rw [if_neg hc,
          if_pos (show (dedupUids (((anchorTokens orig).map mb.searchMsgId ++
            (anchorTokens orig).map mb.searchRefs).flatten)).isEmpty = true by
              rw [hflat]
              rfl)]

/-- Witness for C2: a concrete fetched message with no threading headers. -/
theorem claim_C2_singleton_fallback_witness :
    getThread
        { fetchOriginal := .ok (some
            { id := "3", threadId := "3", subject := "Hi",
              fromA := "a@b.c", toA := [], cc := none, date := 5,
              snippet := "Hi", body := some "Hi", bodyHtml := none,
              labels := ["INBOX"], isRead := false,
              hasAttachments := some false, attachments := some [],
              inReplyTo := none, references := none, messageId := none }),
          connectOk := true, openBoxOk := true,
          searchMsgId := fun _ => [], searchRefs := fun _ => [],
          fetchBatch := fun _ => .ok [] } "3" 0 =
      .ok { messages := [
            { id := "3", threadId := "3", subject := "Hi",
              fromA := "a@b.c", toA := [], cc := none, date := 5,
              snippet := "Hi", body := some "Hi", bodyHtml := none,
              labels := ["INBOX"], isRead := false,
              hasAttachments := some false, attachments := some [],
              inReplyTo := none, references := none, messageId := none }],
            threadId := "3", messageCount := 1 } :=
  claim_C2_singleton_fallback
    { fetchOriginal := .ok (some
        { id := "3", threadId := "3", subject := "Hi",
          fromA := "a@b.c", toA := [], cc := none, date := 5,
          snippet := "Hi", body := some "Hi", bodyHtml := none,
          labels := ["INBOX"], isRead := false,
          hasAttachments := some false, attachments := some [],
          inReplyTo := none, references := none, messageId := none }),
      connectOk := true, openBoxOk := true,
      searchMsgId := fun _ => [], searchRefs := fun _ => [],
      fetchBatch := fun _ => .ok [] } "3" 0
    { id := "3", threadId := "3", subject := "Hi",
      fromA := "a@b.c", toA := [], cc := none, date := 5,
      snippet := "Hi", body := some "Hi", bodyHtml := none,
      labels := ["INBOX"], isRead := false,
      hasAttachments := some false, attachments := some [],
      inReplyTo := none, references := none, messageId := none }
    rfl (Or.inl ⟨rfl, rfl, rfl⟩)

/-- C10: `getAttachment` resolves to null — a not-found outcome, not an
error — when the target message does not exist, when the message has no
attachments, or when `attachmentIndex` is at or past the end of the
attachment list; the size-limit rejection is raised only when the indexed
attachment exists and its declared size exceeds `maxSizeBytes`. -/
theorem claim_C10_attachment_outcomes :
    ∀ (fetched : Option ParsedMail) (idx maxB : Nat),
      (fetched = none → getAttachment fetched idx maxB = .ok none) ∧
      (∀ p, fetched = some p → p.attachments = [] →
        getAttachment fetched idx maxB = .ok none) ∧
      (∀ p, fetched = some p → p.attachments.length ≤ idx →
        getAttachment fetched idx maxB = .ok none) ∧
      (∀ e, getAttachment fetched idx maxB = .error e →
        ∃ p att, fetched = some p ∧ p.attachments.get? idx = some att ∧
          maxB < att.size) := by
  intro fetched idx maxB
  refine ⟨?_, ?_, ?_, ?_⟩
  · intro h
    simp only [getAttachment, h]
  · intro p hp hatt
    simp [getAttachment, hp, hatt]
  · intro p hp hlen
    rcases Nat.eq_zero_or_pos p.attachments.length with h0 | hpos
    · simp [getAttachment, hp, h0]
    · simp only [getAttachment, hp]
      rw [if_neg (by omega), if_pos hlen]
  · intro e herr
    match hf : fetched with
    | none => simp [getAttachment] at herr
    | some p =>
      simp only [getAttachment] at herr
      by_cases h0 : p.attachments.length = 0
      · rw [if_pos h0] at herr; exact absurd herr (by simp)
      · rw [if_neg h0] at herr
        by_cases hle : p.attachments.length ≤ idx
        · rw [if_pos hle] at herr; exact absurd herr (by simp)
        · rw [if_neg hle] at herr
          rcases hg : p.attachments.get? idx with _ | att <;> rw [hg] at herr
          · simp at herr
          · by_cases hsz : maxB < att.size
            · exact ⟨p, att, rfl, hg, hsz⟩
            · simp [hsz] at herr

/-- Witness for C10 at concrete inputs: a missing message, an
out-of-range index, and the error branch. -/
theorem claim_C10_attachment_outcomes_witness :
    getAttachment none 0 1000 = .ok none ∧
    getAttachment (some
        { subject := none, fromText := none, toTexts := none,
          ccTexts := none, date := none, text := none, html := none,
          messageId := none, inReplyTo := none, references := none,
          attachments := [⟨some "a.txt", some "text/plain", 7, "payload"⟩] })
        3 1000 = .ok none ∧
    (∃ p att,
      (some
        { subject := none, fromText := none, toTexts := none,
          ccTexts := none, date := none, text := none, html := none,
          messageId := none, inReplyTo := none, references := none,
          attachments := [⟨some "a.txt", some "text/plain", 7, "payload"⟩] } :
        Option ParsedMail) = some p ∧
      p.attachments.get? 0 = some att ∧ 5 < att.size) :=
  ⟨(claim_C10_attachment_outcomes none 0 1000).1 rfl,
    (claim_C10_attachment_outcomes (some
        { subject := none, fromText := none, toTexts := none,
          ccTexts := none, date := none, text := none, html := none,
          messageId := none, inReplyTo := none, references := none,
          attachments := [⟨some "a.txt", some "text/plain", 7, "payload"⟩] })
        3 1000).2.2.1
      { subject := none, fromText := none, toTexts := none,
        ccTexts := none, date := none, text := none, html := none,
        messageId := none, inReplyTo := none, references := none,
        attachments := [⟨some "a.txt", some "text/plain", 7, "payload"⟩] }
      rfl (by decide),
    (claim_C10_attachment_outcomes (some
        { subject := none, fromText := none, toTexts := none,
          ccTexts := none, date := none, text := none, html := none,
          messageId := none, inReplyTo := none, references := none,
          attachments := [⟨some "a.txt", some "text/plain", 7, "payload"⟩] })
        0 5).2.2.2
      ("Attachment size (7 bytes) exceeds limit (5 bytes)") (by decide)⟩

/-- The invariant exactly as the claim states it (spec § 3, data model):
the `hasAttachments` flag is true iff the attachment descriptor list is
non-empty. An absent flag or list is read as false/empty. -/
def specHasAttachmentsInvariant (m : EmailMessage) : Prop :=
  m.hasAttachments = some true ↔ m.attachments.getD [] ≠ []

instance (m : EmailMessage) : Decidable (specHasAttachmentsInvariant m) := by
  unfold specHasAttachmentsInvariant
  infer_instance

/-- C9 counterexample: a message produced by `listMessages` whose IMAP
body structure indicates an attachment has `hasAttachments = true` while
its attachment descriptor list is never populated, violating the claimed
invariant for `listMessages`-produced messages. -/
theorem claim_C9_counterexample :
    ¬ specHasAttachmentsInvariant (buildListMessage
        "Subject: Lunch\r\nFrom: alice@example.com"
        { uid := 5, date := some 1000, seen := false, structPresent := true,
          structHasAttachmentDisposition := true } 0) := by
  decide

/-- C9 (amended): every `EmailMessage` produced by `getMessage` satisfies
the invariant (`hasAttachments` true iff the descriptor list non-empty),
as does every thread-member message built by `getThread` (which sets
neither field); `listMessages` derives the flag from the body structure
without populating the descriptor list, so the invariant does not hold
there. -/
theorem claim_C9_hasAttachments_invariant :
    (∀ (uid : String) (parsed : ParsedMail) (seen : Bool) (now : Nat),
      specHasAttachmentsInvariant (buildGetMessage uid parsed seen now)) ∧
    (∀ (threadUid : String) (now : Nat) (r : Nat × ParsedMail × Bool),
      specHasAttachmentsInvariant (buildThreadMessage threadUid now r)) := by
  constructor
  · intro uid parsed seen now
    simp only [specHasAttachmentsInvariant, buildGetMessage]
    cases h : parsed.attachments with
    | nil => simp [h]
    | cons a tl => simp [h]
  · intro threadUid now r
    simp [specHasAttachmentsInvariant, buildThreadMessage]

/-- Witness for C9 (amended) at a concrete parsed message with one
attachment. -/
theorem claim_C9_hasAttachments_invariant_witness :
    specHasAttachmentsInvariant (buildGetMessage "4"
      { subject := some "Hi", fromText := some "a@b.c", toTexts := none,
        ccTexts := none, date := some 9, text := some "hello", html := none,
        messageId := some "<m@x>", inReplyTo := none, references := none,
        attachments := [⟨some "a.txt", some "text/plain", 7, "payload"⟩] }
      false 0) :=
  claim_C9_hasAttachments_invariant.1 "4"
    { subject := some "Hi", fromText := some "a@b.c", toTexts := none,
      ccTexts := none, date := some 9, text := some "hello", html := none,
      messageId := some "<m@x>", inReplyTo := none, references := none,
      attachments := [⟨some "a.txt", some "text/plain", 7, "payload"⟩] }
    false 0

/-- C3: every ThreadResult returned by `getThread` has its message list
sorted ascending by timestamp (oldest first), with messages of identical
timestamp keeping their fetch order (the sort is stable); this is the
opposite order of `listMessages`, whose result is sorted descending by
date. -/
theorem claim_C3_thread_sort_ascending :
    (∀ (mb : ThreadMailbox) (uid : String) (now : Nat) (r : ThreadResult),
      getThread mb uid now = .ok r →
      r.messages.Pairwise (fun a b => a.date ≤ b.date)) ∧
    (∀ (l : List EmailMessage) (t : Nat),
      (sortThreadMessages l).filter (fun m => m.date == t) =
        l.filter (fun m => m.date == t)) ∧
    (∀ (items : List (String × ImapAttrs)) (now : Nat),
      (listMessages items now).Pairwise (fun a b => b.date ≤ a.date)) := by
  refine ⟨?_, sortThreadMessages_filter_date, ?_⟩
  · intro mb uid now r h
    simp only [getThread] at h
    split at h
    · exact absurd h (by simp)
    · injection h with h2
      subst h2
      simp
    · split at h
      · injection h with h2
        subst h2
        simp
      · split at h
        · injection h with h2
          subst h2
          simp
        · split at h
          · injection h with h2
            subst h2
            simp
          · split at h
            · injection h with h2
              subst h2
              simp
            · injection h with h2
              subst h2
              exact sortThreadMessages_pairwise _
  · intro items now
    exact sortListMessages_pairwise _

/-- Witness for C3: the sorted-ascending clause applied to a concrete
`getThread` run whose batch fetch returns two messages out of order. -/
theorem claim_C3_thread_sort_ascending_witness :
    ((getThread
        { fetchOriginal := .ok (some
            { id := "3", threadId := "3", subject := "Hi",
              fromA := "a@b.c", toA := [], cc := none, date := 5,
              snippet := "Hi", body := some "Hi", bodyHtml := none,
              labels := ["INBOX"], isRead := false,
              hasAttachments := some false, attachments := some [],
              inReplyTo := none, references := some ["<r@x>"],
              messageId := some "<m@x>" }),
          connectOk := true, openBoxOk := true,
          searchMsgId := fun _ => [4], searchRefs := fun _ => [9],
          fetchBatch := fun _ => .ok
            [(9, { subject := some "B", fromText := some "b@x", toTexts := none,
                   ccTexts := none, date := some 20, text := some "b",
                   html := none, messageId := some "<b@x>", inReplyTo := none,
                   references := none, attachments := [] }, false),
             (4, { subject := some "A", fromText := some "a@x", toTexts := none,
                   ccTexts := none, date := some 10, text := some "a",
                   html := none, messageId := some "<a@x>", inReplyTo := none,
                   references := none, attachments := [] }, true)] } "3" 0).toOption.getD
        { messages := [], threadId := "3", messageCount := 0 }).messages.Pairwise
      (fun a b => a.date ≤ b.date) := by
  have h := claim_C3_thread_sort_ascending.1
    { fetchOriginal := .ok (some
        { id := "3", threadId := "3", subject := "Hi",
          fromA := "a@b.c", toA := [], cc := none, date := 5,
          snippet := "Hi", body := some "Hi", bodyHtml := none,
          labels := ["INBOX"], isRead := false,
          hasAttachments := some false, attachments := some [],
          inReplyTo := none, references := some ["<r@x>"],
          messageId := some "<m@x>" }),
      connectOk := true, openBoxOk := true,
      searchMsgId := fun _ => [4], searchRefs := fun _ => [9],
      fetchBatch := fun _ => .ok
        [(9, { subject := some "B", fromText := some "b@x", toTexts := none,
               ccTexts := none, date := some 20, text := some "b",
               html := none, messageId := some "<b@x>", inReplyTo := none,
               references := none, attachments := [] }, false),
         (4, { subject := some "A", fromText := some "a@x", toTexts := none,
               ccTexts := none, date := some 10, text := some "a",
               html := none, messageId := some "<a@x>", inReplyTo := none,
               references := none, attachments := [] }, true)] } "3" 0
  exact h _ (by rfl)

end EasyGmail
